import Mathlib

/-!
Verification of the restoprofit analysis engine (`analysis_engine.py`,
`database.py`) against its natural-language specification.

Conventions of the shallow embedding:
- Python floats are embedded as rationals (`ℚ`); the spec (section 6) declares
  numeric formatting a presentation concern, so report strings are built with
  honest fixed-point formatters over `ℚ` (half-up at the final digit, which
  agrees with Python half-even formatting on every value appearing here).
- Pandas DataFrame column access is embedded by name through `GunlukDF.col`,
  which returns the column when it exists and a `KeyError` otherwise, exactly
  matching the columns built by `_get_daily_sales_data`.
- Fallible code runs in `Except String`; the `try/except` wrapper of each
  engine is the outer `match` converting an error into a failure triple.
- Single quotes inside Python report strings are elided from the string
  literals; nothing proved depends on them.
-/

namespace Resto

/-- Sum of a list of rationals (embeds pandas `.sum()`). -/
def listSum (l : List ℚ) : ℚ := l.foldl (· + ·) 0

/-- Arithmetic mean (embeds pandas `.mean()`; division by zero only reachable
on empty columns, which the engines guard against). -/
def ortalama (l : List ℚ) : ℚ := listSum l / l.length

/-- Minimum of a column (embeds pandas `.min()`). -/
def kucukDeger (l : List ℚ) : ℚ :=
  match l with
  | [] => 0
  | x :: xs => xs.foldl min x

/-- Maximum of a column (embeds pandas `.max()`). -/
def buyukDeger (l : List ℚ) : ℚ :=
  match l with
  | [] => 0
  | x :: xs => xs.foldl max x

/-- Elementwise product of two columns (embeds pandas `series * series`). -/
def carpim (a b : List ℚ) : List ℚ := List.zipWith (· * ·) a b

/-- Distinct values in first-appearance order (basis of pandas `.nunique()`). -/
def tekiller {α : Type} [DecidableEq α] (l : List α) : List α :=
  l.foldl (fun acc x => if x ∈ acc then acc else acc ++ [x]) []

/-- Insert into an ascending list (helper for the groupby key sort). -/
def ascEkle (x : ℚ) : List ℚ → List ℚ
  | [] => [x]
  | y :: ys => if x ≤ y then x :: y :: ys else y :: ascEkle x ys

/-- Ascending sort (pandas `groupby` sorts group keys ascending). -/
def ascSirala (l : List ℚ) : List ℚ := l.foldr ascEkle []

/-- `np.arange lo hi step` for a positive step: `lo, lo+step, ...` strictly
below `hi`. -/
def arange (lo hi adim : ℚ) : List ℚ :=
  let n : ℕ := if adim ≤ 0 then 0 else if hi ≤ lo then 0 else ((hi - lo) / adim).ceil.toNat
  (List.range n).map (fun i => lo + i * adim)

/-- `np.linspace lo hi n`: `n` evenly spaced samples, endpoints included. -/
def linspace (lo hi : ℚ) (n : ℕ) : List ℚ :=
  (List.range n).map (fun i => lo + i * ((hi - lo) / ((n : ℚ) - 1)))

/-- Embeds line 72 of `analysis_engine.py`:
`predicted_demand[predicted_demand < 0] = 0`. -/
def clampNeg (l : List ℚ) : List ℚ := l.map (fun q => if q < 0 then 0 else q)

/-- Fixed-point rendering with `d` decimal digits (embeds `f-string` `.2f`
and `.1f` formatting on the rationals that actually occur). -/
def fmtFixed (d : ℕ) (q : ℚ) : String :=
  let yuz : ℤ := (10 : ℤ) ^ d
  let n : ℤ := round (q * (yuz : ℚ))
  let a : ℕ := n.natAbs
  let tam : ℕ := a / yuz.toNat
  let kesir : ℕ := a % yuz.toNat
  let kesirStr : String :=
    if d = 0 then "" else
      let s := toString kesir
      "." ++ String.mk (List.replicate (d - s.length) '0') ++ s
  (if n < 0 then "-" else "") ++ toString tam ++ kesirStr

/-- Two decimal digits, Python `{x:.2f}`. -/
def fmt2 (q : ℚ) : String := fmtFixed 2 q

/-- One decimal digit, Python `{x:.1f}`. -/
def fmt1 (q : ℚ) : String := fmtFixed 1 q

/-- No decimal digits, Python `{x:.0f}`. -/
def fmt0 (q : ℚ) : String := fmtFixed 0 q

/-- Python `{s:<20}` left-justified padding to width 20. -/
def padTo20 (s : String) : String :=
  s ++ String.mk (List.replicate (20 - s.length) ' ')

/-- Is `pat` a prefix of `s` (character lists)? -/
def onEk : List Char → List Char → Bool
  | [], _ => true
  | _ :: _, [] => false
  | p :: ps, c :: cs => p == c && onEk ps cs

/-- Does `pat` occur as a contiguous run inside `s` (character lists)? -/
def icinde (pat : List Char) : List Char → Bool
  | [] => onEk pat []
  | c :: rest => onEk pat (c :: rest) || icinde pat rest

/-- Substring occurrence test on strings, used to observe which report branch
an engine took. -/
def hasSub (s pat : String) : Bool := icinde pat.data s.data

-- ## Data model (`database.py`)

/-- One `SatisKaydi` row as the per-item engines read it: timestamp (`tarih`,
a `DateTime`, embedded as days since an epoch with fractional time of day),
`adet` and `hesaplanan_birim_fiyat`. -/
structure SatisRow where
  tarih : ℚ
  adet : ℤ
  hesaplananBirimFiyat : ℚ
deriving DecidableEq

/-- The `Urun` model fields the analysis engines read. -/
structure Urun where
  id : ℤ
  isim : String
  mevcutSatisFiyati : ℚ
  hesaplananMaliyet : Option ℚ
  kategori : String
  kategoriGrubu : String
deriving DecidableEq

/-- One row of the grouped sales frame used by the period comparator: sale
timestamp, the two possible sub-group labels (item name and category), and the
stored per-row profit (`hesaplanan_kar`). -/
structure GrupRow where
  tarih : ℚ
  isim : String
  kategori : String
  kar : ℚ
deriving DecidableEq

/-- One row of the frame returned by `_get_daily_sales_data`: columns
`hesaplanan_birim_fiyat`, `toplam_adet`, `gun_sayisi`,
`ortalama_gunluk_adet`. -/
structure GunlukRow where
  hesaplananBirimFiyat : ℚ
  toplamAdet : ℚ
  gunSayisi : ℕ
  ortalamaGunlukAdet : ℚ
deriving DecidableEq

/-- The grouped daily-sales DataFrame. -/
structure GunlukDF where
  rows : List GunlukRow
deriving DecidableEq

/-- Column access by name on the grouped frame, as `df_gunluk[name]` does:
exactly the four columns built by `_get_daily_sales_data` exist; any other
name raises a `KeyError`. -/
def GunlukDF.col (df : GunlukDF) (ad : String) : Except String (List ℚ) :=
  if ad = "hesaplanan_birim_fiyat" then .ok (df.rows.map (·.hesaplananBirimFiyat))
  else if ad = "toplam_adet" then .ok (df.rows.map (·.toplamAdet))
  else if ad = "gun_sayisi" then .ok (df.rows.map (fun r => (r.gunSayisi : ℚ)))
  else if ad = "ortalama_gunluk_adet" then .ok (df.rows.map (·.ortalamaGunlukAdet))
  else .error ("KeyError: " ++ ad)

/-- Chart payloads (the `chart_data` JSON; serialization is presentation). -/
inductive Chart where
  | line (labels : List ℚ) (data : List ℚ)
  | bar (labels : List String) (dataOnceki : List ℚ) (dataBu : List ℚ)
deriving DecidableEq

/-- The tri-state result every engine returns:
`(success flag, report text, optional chart payload)`. -/
abbrev Sonuc := Bool × String × Option Chart

/-- The environment an analysis call reads: the item registry
(`Urun.query.filter_by(isim=...)`), the per-item sales rows
(`SatisKaydi` filtered by `urun_id`), the grouped sales resolver (see
`getSalesByFilter`), and the current date (`datetime.now().date()`, embedded
as whole days since the epoch). -/
structure Env where
  urunler : String → Option Urun
  satislar : ℤ → List SatisRow
  salesByFilter : String → String → Option (List GrupRow)
  bugun : ℤ

-- ## Sales Aggregator (`_get_daily_sales_data`, lines 13-49)

/-- Embeds `_get_daily_sales_data`: fewer than 2 sales rows gives `None`;
otherwise group by exact `hesaplanan_birim_fiyat` (keys sorted ascending, as
pandas `groupby` does), with `toplam_adet` the summed quantity, `gun_sayisi`
the number of distinct `tarih` values at that price, and
`ortalama_gunluk_adet = toplam_adet / gun_sayisi`; fewer than 2 distinct
prices gives `None`. -/
def getDailySalesData (satislar : List SatisRow) : Option GunlukDF :=
  if satislar.length < 2 then none
  else
    let fiyatlar := ascSirala (tekiller (satislar.map (·.hesaplananBirimFiyat)))
    let rows := fiyatlar.map (fun p =>
      let grup := satislar.filter (fun s => s.hesaplananBirimFiyat = p)
      let toplam : ℚ := ((grup.map (·.adet)).sum : ℤ)
      let gunler := tekiller (grup.map (·.tarih))
      { hesaplananBirimFiyat := p, toplamAdet := toplam,
        gunSayisi := gunler.length,
        ortalamaGunlukAdet := toplam / (gunler.length : ℚ) })
    if rows.length < 2 then none else some ⟨rows⟩

-- ## Demand Model Fitter (`LinearRegression().fit`, `model.predict`)

/-- A fitted linear model: (slope `coef_[0]`, intercept). -/
abbrev Model := ℚ × ℚ

/-- Closed-form ordinary least squares for one covariate, the computation
`LinearRegression().fit(X, y)` performs. -/
def olsFit (xs ys : List ℚ) : Model :=
  let n : ℚ := xs.length
  let sx := listSum xs
  let sy := listSum ys
  let sxy := listSum (carpim xs ys)
  let sxx := listSum (carpim xs xs)
  let egim := (n * sxy - sx * sy) / (n * sxx - sx * sx)
  (egim, (sy - egim * sx) / n)

/-- `model.predict([[p]])[0]`. -/
def tahmin (m : Model) (p : ℚ) : ℚ := m.1 * p + m.2

/-- Embeds lines 171-173 of the Price Simulator: predict the quantity at the
candidate price, floor it at 0, and compute profit
`(price - cost) * quantity`. Returns `(quantity, profit)`. -/
def simTahminAdim (model : Model) (maliyet testEdilecekYeniFiyat : ℚ) : ℚ × ℚ :=
  let tahminiYeniSatis := tahmin model testEdilecekYeniFiyat
  let tahminiYeniSatis := max 0 tahminiYeniSatis
  (tahminiYeniSatis, (testEdilecekYeniFiyat - maliyet) * tahminiYeniSatis)

/-- Embeds lines 240-246 of the Optimum-Price Search loop body: model
prediction or constant fallback, floored at 0, then profit. Returns
`(quantity, profit)`. -/
def optTahminAdim (model : Option Model) (ortalamaAdet maliyet fiyat : ℚ) : ℚ × ℚ :=
  let tahminiAdet := match model with
    | some m => tahmin m fiyat
    | none => ortalamaAdet
  let tahminiAdet := max 0 tahminiAdet
  (tahminiAdet, (fiyat - maliyet) * tahminiAdet)

-- ## Curve Renderer (`_generate_price_curve_data`, lines 51-90)

/-- Python truthiness of the optional `simule_fiyat` argument
(`if simule_fiyat:`): `None` and `0.0` are falsy. -/
def pyTruthy : Option ℚ → Bool
  | none => false
  | some f => f != 0

/-- Embeds `_generate_price_curve_data`. Faithful to the source, including
its two defects: it reads column `ortalama_fiyat`, which
`_get_daily_sales_data` never creates (`KeyError`), and — were that column
present — the range-extension line reads the unbound local `fiyat_max`
(`UnboundLocalError`) instead of `max_fiyat`. -/
def generatePriceCurveData (model : Option Model) (maliyet : ℚ) (dfGunluk : GunlukDF)
    (simuleFiyat : Option ℚ) : Except String Chart := do
  let ofKolon ← dfGunluk.col "ortalama_fiyat"
  let _mevcutFiyat := ortalama ofKolon
  let minFiyat := max (maliyet * (11/10)) (kucukDeger ofKolon * (8/10))
  let maxFiyat := buyukDeger ofKolon * (3/2)
  if pyTruthy simuleFiyat then
    throw "UnboundLocalError: fiyat_max"
  else
    let pricePoints := linspace minFiyat maxFiyat 50
    let predictedDemand ← (match model with
      | some m => pure (pricePoints.map (tahmin m))
      | none => do
          let taKolon ← dfGunluk.col "toplam_adet"
          pure (pricePoints.map (fun _ => ortalama taKolon)))
    let predictedDemand := clampNeg predictedDemand
    let profitPoints := List.zipWith (fun p q => (p - maliyet) * q) pricePoints predictedDemand
    return Chart.line pricePoints profitPoints

-- ## Target-Margin Solver (`hesapla_hedef_marj`, lines 94-122)

/-- `gereken_satis_fiyati = maliyet / (1 - marj_orani)` with
`marj_orani = hedef_marj_yuzdesi / 100.0` (line 108-109). -/
def gerekenSatisFiyati (maliyet hedefMarjYuzdesi : ℚ) : ℚ :=
  let marjOrani := hedefMarjYuzdesi / 100
  maliyet / (1 - marjOrani)

/-- The item-not-found message. -/
def bulunamadiHata (urunIsmi : String) : String :=
  "HATA: " ++ urunIsmi ++ " adında bir ürün bulunamadı."

/-- The missing-cost message of the Target-Margin Solver. -/
def marjMaliyetHata (urunIsmi : String) : String :=
  "HATA: " ++ urunIsmi ++ " ürününün maliyeti (0 TL) hesaplanmamış. Lütfen Menü Yönetimi-nden reçete ekleyin."

/-- The success report of the Target-Margin Solver (lines 111-117). -/
def marjRaporu (isim : String) (maliyet marj fiyat : ℚ) : String :=
  "--- HESAPLAMA SONUCU ---\n\n" ++
  "  Ürün: " ++ isim ++ "\n" ++
  "  Hesaplanan Güncel Maliyet (COGS): " ++ fmt2 maliyet ++ " TL\n" ++
  "  İstenen Kar Marjı: %" ++ fmt0 marj ++ "\n\n" ++
  "  🎯 GEREKEN SATIŞ FİYATI: " ++ fmt2 fiyat ++ " TL 🎯"

/-- The body of `hesapla_hedef_marj` inside its `try`. It performs no
fallible operation, so it is a total computation. -/
def hedefMarjCore (env : Env) (urunIsmi : String) (hedefMarjYuzdesi : ℚ) : Sonuc :=
  match env.urunler urunIsmi with
  | none => (false, bulunamadiHata urunIsmi, none)
  | some urun =>
    match urun.hesaplananMaliyet with
    | none => (false, marjMaliyetHata urunIsmi, none)
    | some maliyet =>
      if maliyet ≤ 0 then (false, marjMaliyetHata urunIsmi, none)
      else if ¬ (0 < hedefMarjYuzdesi ∧ hedefMarjYuzdesi < 100) then
        (false, "HATA: Hedef Marj %1 ile %99 arasında bir değer olmalıdır.", none)
      else
        (true,
         marjRaporu urun.isim maliyet hedefMarjYuzdesi
           (gerekenSatisFiyati maliyet hedefMarjYuzdesi),
         none)

/-- The body as the `try` block sees it. -/
def hedefMarjBody (env : Env) (urunIsmi : String) (hedefMarjYuzdesi : ℚ) :
    Except String Sonuc :=
  Except.ok (hedefMarjCore env urunIsmi hedefMarjYuzdesi)

/-- Engine 1, `hesapla_hedef_marj`, with its `try/except` wrapper
(lines 96, 121-122). -/
def hesaplaHedefMarj (env : Env) (urunIsmi : String) (hedefMarjYuzdesi : ℚ) : Sonuc :=
  match hedefMarjBody env urunIsmi hedefMarjYuzdesi with
  | .ok r => r
  | .error e => (false, "Hesaplama hatası: " ++ e, none)

-- ## Price Simulator (`simule_et_fiyat_degisikligi`, lines 125-193)

/-- The missing-cost message of the Price Simulator. -/
def simMaliyetHata (urunIsmi : String) : String :=
  "HATA: " ++ urunIsmi ++ " ürününün maliyeti (0 TL) hesaplanmamış. Lütfen önce reçete ve hammadde fiyatlarını girin."

/-- The insufficient-sales-data message shared by simulator and optimizer. -/
def yetersizVeriHata (urunIsmi : String) : String :=
  "HATA: " ++ urunIsmi ++ " için analiz edilecek yeterli satış verisi bulunamadı. (En az 2 farklı günde/fiyatta satış yapılmalı)."

/-- The current-state header of the simulator report (lines 149-156). -/
def mevcutDurumRaporu (fiyat satis maliyet kar : ℚ) : String :=
  "--- MEVCUT DURUM (Geçmiş Veri Ortalaması) ---\n" ++
  "  Ortalama Fiyat: " ++ fmt2 fiyat ++ " TL\n" ++
  "  Ortalama Günlük Satış: " ++ fmt1 satis ++ " adet\n" ++
  "  Ürün Maliyeti: " ++ fmt2 maliyet ++ " TL\n" ++
  "  Tahmini Günlük Kar: " ++ fmt2 kar ++ " TL\n" ++
  String.mk (List.replicate 50 '-') ++ "\n"

/-- The simulation-result block of the report (lines 176-181). -/
def simulasyonRaporu (fiyat satis kar : ℚ) : String :=
  "--- SİMÜLASYON SONUCU (" ++ fmt2 fiyat ++ " TL) ---\n" ++
  "  Tahmini Günlük Satış: " ++ fmt1 satis ++ " adet\n" ++
  "  Tahmini Günlük Kar: " ++ fmt2 kar ++ " TL\n" ++
  String.mk (List.replicate 50 '=') ++ "\n"

/-- The final verdict line of the simulator report (lines 183-186). -/
def simKarar (karDegisimi : ℚ) : String :=
  if 0 < karDegisimi then
    "  SONUÇ (TAVSİYE): BAŞARILI!\n  Günlük karınızı TAHMİNİ " ++ fmt2 karDegisimi ++ " TL ARTIRABİLİR."
  else
    "  SONUÇ (UYARI): BAŞARISIZ!\n  Günlük karınızı TAHMİNİ " ++ fmt2 (abs karDegisimi) ++ " TL AZALTABİLİR."

/-- The body of `simule_et_fiyat_degisikligi` inside its `try`, faithful to
the source order of operations; the first read of the nonexistent column
`ortalama_fiyat` (line 145) raises. -/
def simuleBody (env : Env) (urunIsmi : String) (testEdilecekYeniFiyat : ℚ) :
    Except String Sonuc := do
  match env.urunler urunIsmi with
  | none => return (false, bulunamadiHata urunIsmi, none)
  | some urun =>
    match urun.hesaplananMaliyet with
    | none => return (false, simMaliyetHata urunIsmi, none)
    | some maliyet =>
      if maliyet ≤ 0 then
        return (false, simMaliyetHata urunIsmi, none)
      else
        match getDailySalesData (env.satislar urun.id) with
        | none => return (false, yetersizVeriHata urunIsmi, none)
        | some dfGunluk =>
          if dfGunluk.rows.isEmpty then
            return (false, yetersizVeriHata urunIsmi, none)
          else do
            let ofKolon ← dfGunluk.col "ortalama_fiyat"
            let taKolon ← dfGunluk.col "toplam_adet"
            let mevcutOrtalamaFiyat := listSum (carpim ofKolon taKolon) / listSum taKolon
            let mevcutGunlukSatis := ortalama taKolon
            let mevcutGunlukKar := (mevcutOrtalamaFiyat - maliyet) * mevcutGunlukSatis
            let rapor := mevcutDurumRaporu mevcutOrtalamaFiyat mevcutGunlukSatis maliyet mevcutGunlukKar
            if (tekiller ofKolon).length < 2 then
              return (false, rapor ++ "UYARI: Ürün hep aynı fiyattan satılmış. Talep modeli kurulamaz.\nSimülasyon iptal edildi.", none)
            else
              let model := olsFit ofKolon taKolon
              if 0 ≤ model.1 then
                return (false, rapor ++ "UYARI: Model, fiyat arttıkça satışların ARTTIĞINI söylüyor! Veri yetersiz veya hatalı (örn: enflasyonist ortam).\n", none)
              else
                let adimSonucu := simTahminAdim model maliyet testEdilecekYeniFiyat
                let karDegisimi := adimSonucu.2 - mevcutGunlukKar
                let rapor := rapor ++ simulasyonRaporu testEdilecekYeniFiyat adimSonucu.1 adimSonucu.2
                let rapor := rapor ++ simKarar karDegisimi
                let chartData ← generatePriceCurveData (some model) maliyet dfGunluk (some testEdilecekYeniFiyat)
                return (true, rapor, some chartData)

/-- Engine 2, `simule_et_fiyat_degisikligi`, with its `try/except` wrapper
(lines 130, 192-193). -/
def simuleEtFiyatDegisikligi (env : Env) (urunIsmi : String) (testEdilecekYeniFiyat : ℚ) : Sonuc :=
  match simuleBody env urunIsmi testEdilecekYeniFiyat with
  | .ok r => r
  | .error e => (false, "Simülasyon hatası: " ++ e, none)

-- ## Optimum-Price Search (`bul_optimum_fiyat`, lines 196-273)

/-- The missing-cost message of the Optimum-Price Search. -/
def optMaliyetHata (urunIsmi : String) : String :=
  "HATA: " ++ urunIsmi ++ " ürününün maliyeti (0 TL) hesaplanmamış. Lütfen Menü Yönetimi-nden reçete ekleyin."

/-- The single-price warning of the Optimum-Price Search (line 219). -/
def optTekFiyatUyari : String :=
  "UYARI: Ürün hep aynı fiyattan satılmış. Talep modeli kurulamaz.\nOptimizasyon, mevcut ortalama satış adedine göre TAHMİNİDİR.\nDaha doğru bir analiz için ürünü farklı fiyatlardan satıp verileri tekrar yükleyin.\n\n"

/-- The rejected-model warning of the Optimum-Price Search (line 226). -/
def optEgimUyari : String :=
  "UYARI: Model, fiyat arttıkça satışların ARTTIĞINI söylüyor! Veri yetersiz veya hatalı.\n\n"

/-- `df_sonuclar.loc[df_sonuclar[tahmini_kar].idxmax()]`: the first row
attaining the maximal profit (pandas `idxmax` returns the first maximising
index). Rows are `(test_fiyati, tahmini_adet, tahmini_kar)`. -/
def ilkArgmax (sonuclar : List (ℚ × ℚ × ℚ)) : ℚ × ℚ × ℚ :=
  match sonuclar with
  | [] => (0, 0, 0)
  | h :: t => t.foldl (fun best x => if best.2.2 < x.2.2 then x else best) h

/-- The recommendation block of the optimizer report (lines 259-267). -/
def optimumRaporu (mevcutFiyat mevcutKar : ℚ) (optimum : ℚ × ℚ × ℚ) : String :=
  "--- MEVCUT DURUM (Menü Fiyatı) ---\n" ++
  "  Mevcut Fiyat: " ++ fmt2 mevcutFiyat ++ " TL\n" ++
  "  Ort. Günlük Kar: " ++ fmt2 mevcutKar ++ " TL\n\n" ++
  "--- OPTİMUM FİYAT TAVSİYESİ ---\n" ++
  "  🏆 MAKSİMUM KAR İÇİN TAVSİYE EDİLEN FİYAT: " ++ fmt2 optimum.1 ++ " TL 🏆\n\n" ++
  "  Bu fiyattan tahmini günlük satış: " ++ fmt1 optimum.2.1 ++ " adet\n" ++
  "  Tahmini maksimum günlük kar: " ++ fmt2 optimum.2.2 ++ " TL"

/-- The tail of `bul_optimum_fiyat` from line 229 on, once the report prefix
and the (possibly discarded) model are fixed: price range, grid, per-price
evaluation, first argmax, report and chart. -/
def bulOptimumDevam (urun : Urun) (maliyet : ℚ) (dfGunluk : GunlukDF)
    (fiyatDenemeAraligi : ℚ) (rapor : String) (model : Option Model) :
    Except String Sonuc := do
  let ofKolon ← dfGunluk.col "ortalama_fiyat"
  let minFiyat := max (maliyet * (11/10)) (kucukDeger ofKolon * (8/10))
  let maxFiyat := buyukDeger ofKolon * (3/2)
  let testPrices := arange minFiyat maxFiyat fiyatDenemeAraligi
  if testPrices.length = 0 then
    return (false, "HATA: Geçerli bir fiyat aralığı bulunamadı. (Min: " ++ toString minFiyat ++ ", Max: " ++ toString maxFiyat ++ ")", none)
  else do
    let taKolon ← dfGunluk.col "toplam_adet"
    let sonuclar := testPrices.map (fun fiyat =>
      let adim := optTahminAdim model (ortalama taKolon) maliyet fiyat
      (fiyat, adim.1, adim.2))
    if sonuclar.length = 0 then
      return (false, "HATA: Hiçbir sonuç hesaplanamadı.", none)
    else
      let optimum := ilkArgmax sonuclar
      let mevcutGunlukSatis := ortalama taKolon
      let mevcutKar := (urun.mevcutSatisFiyati - maliyet) * mevcutGunlukSatis
      let rapor := rapor ++ optimumRaporu urun.mevcutSatisFiyati mevcutKar optimum
      let chartData ← generatePriceCurveData model maliyet dfGunluk none
      return (true, rapor, some chartData)

/-- The body of `bul_optimum_fiyat` inside its `try`; the first read of the
nonexistent column `ortalama_fiyat` (the `nunique` test on line 218)
raises. -/
def bulOptimumBody (env : Env) (urunIsmi : String) (fiyatDenemeAraligi : ℚ) :
    Except String Sonuc := do
  match env.urunler urunIsmi with
  | none => return (false, bulunamadiHata urunIsmi, none)
  | some urun =>
    match urun.hesaplananMaliyet with
    | none => return (false, optMaliyetHata urunIsmi, none)
    | some maliyet =>
      if maliyet ≤ 0 then
        return (false, optMaliyetHata urunIsmi, none)
      else
        match getDailySalesData (env.satislar urun.id) with
        | none => return (false, yetersizVeriHata urunIsmi, none)
        | some dfGunluk =>
          if dfGunluk.rows.isEmpty then
            return (false, yetersizVeriHata urunIsmi, none)
          else do
            let ofKolon ← dfGunluk.col "ortalama_fiyat"
            if (tekiller ofKolon).length < 2 then
              bulOptimumDevam urun maliyet dfGunluk fiyatDenemeAraligi optTekFiyatUyari none
            else do
              let x ← dfGunluk.col "ortalama_fiyat"
              let y ← dfGunluk.col "toplam_adet"
              let model := olsFit x y
              if 0 ≤ model.1 then
                bulOptimumDevam urun maliyet dfGunluk fiyatDenemeAraligi optEgimUyari none
              else
                bulOptimumDevam urun maliyet dfGunluk fiyatDenemeAraligi "" (some model)

/-- Engine 3, `bul_optimum_fiyat`, with its `try/except` wrapper
(lines 201, 272-273). The step defaults to 1.0 at the call sites. -/
def bulOptimumFiyat (env : Env) (urunIsmi : String) (fiyatDenemeAraligi : ℚ) : Sonuc :=
  match bulOptimumBody env urunIsmi fiyatDenemeAraligi with
  | .ok r => r
  | .error e => (false, "Optimizasyon hatası: " ++ e, none)

-- ## Period Comparator (`analiz_et_kategori_veya_grup`, lines 277-379)

/-- Modelled from the spec: `_get_sales_by_filter` is called by
`analiz_et_kategori_veya_grup` but defined nowhere in the sources; per spec
section 6 it is the grouping-key resolver returning, for a category or
category-group name, the member items sales rows (date, sub-group labels,
per-row profit), signalling absence when the key has no sales at all. -/
def getSalesByFilter (env : Env) (tip isim : String) : Option (List GrupRow) :=
  env.salesByFilter tip isim

/-- The summary `_hesapla_kategori_ozeti` returns for one window. -/
structure KategoriOzeti where
  toplamKari : ℚ
  karlar : List (String × ℚ)
  paylar : List (String × ℚ)
deriving DecidableEq

/-- `dict.get(label, 0)` on an association list. -/
def sozlukDeger (d : List (String × ℚ)) (ad : String) : ℚ :=
  match d.find? (fun p => p.1 = ad) with
  | some p => p.2
  | none => 0

/-- Modelled from the spec: `_hesapla_kategori_ozeti` is called by
`analiz_et_kategori_veya_grup` but defined nowhere in the sources; per spec
section 4.7 it computes, for one window and a grouping column, the window
total profit, each sub-group label total profit, and each label percentage
share of the window total (share of an empty total taken as 0, a case the
spec leaves open). Labels appear in first-appearance order. -/
def hesaplaKategoriOzeti (rows : List GrupRow) (grupKolonu : String) : KategoriOzeti :=
  let etiket : GrupRow → String := fun r => if grupKolonu = "kategori" then r.kategori else r.isim
  let etiketler := tekiller (rows.map etiket)
  let karlar := etiketler.map (fun l =>
    (l, listSum ((rows.filter (fun r => etiket r = l)).map (·.kar))))
  let toplam := listSum (rows.map (·.kar))
  let paylar := karlar.map (fun lk =>
    (lk.1, if toplam = 0 then 0 else lk.2 / toplam * 100))
  { toplamKari := toplam, karlar := karlar, paylar := paylar }

/-- Embeds line 303: `df_satislar[df_satislar[tarih] >= bu_periyot_basi]`.
The current window has no upper bound. -/
def buPeriyotFilter (bugun gunSayisi : ℤ) (rows : List GrupRow) : List GrupRow :=
  rows.filter (fun r => decide (((bugun - gunSayisi : ℤ) : ℚ) ≤ r.tarih))

/-- Embeds lines 304-307: rows with
`onceki_periyot_basi <= tarih < bu_periyot_basi`. -/
def oncekiPeriyotFilter (bugun gunSayisi : ℤ) (rows : List GrupRow) : List GrupRow :=
  rows.filter (fun r =>
    decide (((bugun - gunSayisi - gunSayisi : ℤ) : ℚ) ≤ r.tarih ∧
            r.tarih < ((bugun - gunSayisi : ℤ) : ℚ)))

/-- Ascending insertion by the string order (for `sorted(...)` on labels). -/
def strEkle (x : String) : List String → List String
  | [] => [x]
  | y :: ys => if x < y then x :: y :: ys else y :: strEkle x ys

/-- `sorted(list(s))` for label lists. -/
def strSirala (l : List String) : List String := l.foldr strEkle []

/-- The per-window block of the report: total profit plus the profit-share
listing (lines 320-333 pattern, used for both windows). -/
def ozetBloku (ozet : KategoriOzeti) : String :=
  "  📊 TOPLAM KAR: " ++ fmt2 ozet.toplamKari ++ " TL\n" ++
  "  Kar Payları (Grup içinde):\n" ++
  (if ozet.paylar.isEmpty then "    - Veri yok.\n" else "") ++
  String.join (ozet.paylar.map (fun ip =>
    "    - " ++ padTo20 ip.1 ++ ": %" ++ fmt1 ip.2 ++ "  (" ++ fmt2 (sozlukDeger ozet.karlar ip.1) ++ " TL)\n"))

/-- Everything the report accumulates before the strategy advisory
(lines 316-336), ending with the `STRATEJİST TAVSİYESİ:` header. -/
def analizGovde (baslik : String) (gunSayisi oncekiPeriyotBasi buPeriyotBasi : ℤ)
    (ozetOnceki ozetBu : KategoriOzeti) : String :=
  baslik ++ "\n(Son " ++ toString gunSayisi ++ " gün ile önceki " ++ toString gunSayisi ++ " gün karşılaştırması)\n" ++
  String.mk (List.replicate 60 '=') ++ "\n\n" ++
  "--- ÖNCEKİ PERİYOT (" ++ toString oncekiPeriyotBasi ++ " - " ++ toString buPeriyotBasi ++ ") ---\n" ++
  ozetBloku ozetOnceki ++
  "\n--- BU PERİYOT (Son " ++ toString gunSayisi ++ " Gün) ---\n" ++
  ozetBloku ozetBu ++
  "\n" ++ String.mk (List.replicate 60 '=') ++ "\n" ++
  "  STRATEJİST TAVSİYESİ:\n"

/-- The strategy advisory appended last (lines 338-347): `fark > 0` is framed
as success; otherwise the cannibalization warning, cross-group for
`kategori_grubu` and intra-group for `kategori`. -/
def stratejistTavsiyesi (tip isim : String) (fark : ℚ) : String :=
  if 0 < fark then
    "  ✅ BAŞARILI! " ++ isim ++ " grubunun/kategorisinin toplam karı " ++ fmt2 fark ++ " TL ARTTI."
  else
    "  ❌ DİKKAT! " ++ isim ++ " grubunun/kategorisinin toplam karı " ++ fmt2 (abs fark) ++ " TL AZALDI.\n" ++
    (if tip = "kategori_grubu" then
      "  Bu durum çapraz yamyamlık (cannibalization) etkisi olabilir. Detayları inceleyin.\n"
     else
      "  Bu durum iç yamyamlık (cannibalization) etkisi olabilir.\n") ++
    "  Bu fiyat politikasını GÖZDEN GEÇİRİN."

/-- The comparison-impossible warning (line 310). -/
def yetersizKarsilastirmaUyari (gunSayisi : ℤ) : String :=
  "UYARI: Karşılaştırma için yeterli veri bulunamadı. (Son " ++ toString gunSayisi ++ " gün ve önceki " ++ toString gunSayisi ++ " gün için ayrı ayrı veri gerekli)."

/-- The no-sales failure message (line 295). -/
def grupVeriYokHata (isim : String) : String :=
  "HATA: " ++ isim ++ " için hiç satış verisi bulunamadı."

/-- The tail of the comparator once the rows, grouping column and title are
fixed (lines 297-375). -/
def analizDevam (env : Env) (tip isim : String) (gunSayisi : ℤ)
    (dfSatislar : List GrupRow) (grupKolonu baslik : String) : Sonuc :=
  if dfSatislar.isEmpty then (false, grupVeriYokHata isim, none)
  else
    let bugun := env.bugun
    let buPeriyotBasi := bugun - gunSayisi
    let oncekiPeriyotBasi := buPeriyotBasi - gunSayisi
    let dfBuPeriyot := buPeriyotFilter bugun gunSayisi dfSatislar
    let dfOncekiPeriyot := oncekiPeriyotFilter bugun gunSayisi dfSatislar
    if dfBuPeriyot.isEmpty ∨ dfOncekiPeriyot.isEmpty then
      (false, yetersizKarsilastirmaUyari gunSayisi, none)
    else
      let ozetBu := hesaplaKategoriOzeti dfBuPeriyot grupKolonu
      let ozetOnceki := hesaplaKategoriOzeti dfOncekiPeriyot grupKolonu
      let fark := ozetBu.toplamKari - ozetOnceki.toplamKari
      let rapor := analizGovde baslik gunSayisi oncekiPeriyotBasi buPeriyotBasi ozetOnceki ozetBu ++
        stratejistTavsiyesi tip isim fark
      let labels := strSirala (tekiller (ozetOnceki.karlar.map (·.1) ++ ozetBu.karlar.map (·.1)))
      let dataOnceki := labels.map (sozlukDeger ozetOnceki.karlar)
      let dataBu := labels.map (sozlukDeger ozetBu.karlar)
      (true, rapor, some (Chart.bar labels dataOnceki dataBu))

/-- The body of `analiz_et_kategori_veya_grup` inside its `try`: dispatch on
the analysis kind (lines 283-292), then compare the two windows. With the
two modelled helpers present the body performs no fallible operation. -/
def analizCore (env : Env) (tip isim : String) (gunSayisi : ℤ) : Sonuc :=
  if tip = "kategori" then
    match getSalesByFilter env "kategori" isim with
    | none => (false, grupVeriYokHata isim, none)
    | some dfSatislar =>
        analizDevam env tip isim gunSayisi dfSatislar "isim" ("KATEGORİ ANALİZİ: " ++ isim)
  else if tip = "kategori_grubu" then
    match getSalesByFilter env "kategori_grubu" isim with
    | none => (false, grupVeriYokHata isim, none)
    | some dfSatislar =>
        analizDevam env tip isim gunSayisi dfSatislar "kategori" ("KATEGORİ GRUBU ANALİZİ: " ++ isim)
  else (false, "HATA: Geçersiz analiz tipi.", none)

/-- The body as the `try` block sees it. -/
def analizBody (env : Env) (tip isim : String) (gunSayisi : ℤ) : Except String Sonuc :=
  Except.ok (analizCore env tip isim gunSayisi)

/-- Engines 4 and 5, `analiz_et_kategori_veya_grup`, with the `try/except`
wrapper (lines 282, 377-379). -/
def analizEtKategoriVeyaGrup (env : Env) (tip isim : String) (gunSayisi : ℤ) : Sonuc :=
  match analizBody env tip isim gunSayisi with
  | .ok r => r
  | .error e => (false, "Stratejik analiz hatası: " ++ e, none)

-- ## Concrete environments used by the claim instances

/-- The "Burger" item of the worked scenario: cost 10, listed price 20. -/
def burgerUrun : Urun :=
  { id := 1, isim := "Burger", mevcutSatisFiyati := 20,
    hesaplananMaliyet := some 10, kategori := "Burgerler",
    kategoriGrubu := "Ana Yemekler" }

/-- The scenario sales: 30 units over 3 distinct days at price 20 and
14 units over 2 distinct days at price 25. -/
def burgerSatislar : List SatisRow :=
  [⟨1, 10, 20⟩, ⟨2, 12, 20⟩, ⟨3, 8, 20⟩, ⟨4, 8, 25⟩, ⟨5, 6, 25⟩]

/-- Environment holding just the Burger item and its sales. -/
def burgerEnv : Env :=
  { urunler := fun s => if s = "Burger" then some burgerUrun else none,
    satislar := fun i => if i = 1 then burgerSatislar else [],
    salesByFilter := fun _ _ => none,
    bugun := 100 }

/-- The aggregated frame of the Burger scenario. -/
def burgerDF : GunlukDF :=
  ⟨[{ hesaplananBirimFiyat := 20, toplamAdet := 30, gunSayisi := 3, ortalamaGunlukAdet := 10 },
    { hesaplananBirimFiyat := 25, toplamAdet := 14, gunSayisi := 2, ortalamaGunlukAdet := 7 }]⟩

/-- An item whose demand rises with price (slope of any fit is positive):
5 units at price 10, 50 units at price 20, cost 1. -/
def yukselenUrun : Urun :=
  { id := 2, isim := "Limonata", mevcutSatisFiyati := 12,
    hesaplananMaliyet := some 1, kategori := "İçecekler",
    kategoriGrubu := "Alkolsüz" }

/-- Sales with demand increasing in price. -/
def yukselenSatislar : List SatisRow :=
  [⟨1, 5, 10⟩, ⟨2, 50, 20⟩]

/-- Environment holding the rising-demand item. -/
def yukselenEnv : Env :=
  { urunler := fun s => if s = "Limonata" then some yukselenUrun else none,
    satislar := fun i => if i = 2 then yukselenSatislar else [],
    salesByFilter := fun _ _ => none,
    bugun := 100 }

/-- A sale stamped today (`bugun = 100`, midnight). -/
def c8RToday : GrupRow := { tarih := 100, isim := "A", kategori := "K", kar := 5 }

/-- Grouped rows for the window claims: one sale inside `[93, 100)`, one
inside `[86, 93)`, and one stamped today. -/
def c8Rows : List GrupRow :=
  [{ tarih := 95, isim := "A", kategori := "K", kar := 3 },
   { tarih := 90, isim := "A", kategori := "K", kar := 4 },
   c8RToday]

/-- Rows giving both windows the same total profit (delta exactly 0):
one sale of profit 100 in each window. -/
def c9Rows : List GrupRow :=
  [{ tarih := 95, isim := "A", kategori := "Burgerler", kar := 100 },
   { tarih := 90, isim := "A", kategori := "Burgerler", kar := 100 }]

/-- Environment for the period-comparator claims: category "Burgerler" with
`c9Rows`, today = 100. -/
def c9Env : Env :=
  { urunler := fun _ => none,
    satislar := fun _ => [],
    salesByFilter := fun tip isim =>
      if tip = "kategori" ∧ isim = "Burgerler" then some c9Rows else none,
    bugun := 100 }

-- ## Helper lemmas on substring occurrence

/-- A prefix of a list stays a prefix after appending on the right. -/
theorem onEk_append {pat l : List Char} (b : List Char) (h : onEk pat l = true) :
    onEk pat (l ++ b) = true := by
  induction pat generalizing l with
  | nil => rfl
  | cons p ps ih =>
    cases l with
    | nil => simp [onEk] at h
    | cons c cs =>
      simp only [onEk, Bool.and_eq_true] at h ⊢
      exact ⟨h.1, ih h.2⟩

/-- The empty pattern occurs everywhere. -/
theorem icinde_nil (l : List Char) : icinde [] l = true := by
  induction l with
  | nil => rfl
  | cons c rest ih => simp [icinde, onEk]

/-- An occurrence inside `a` survives appending `b` on the right. -/
theorem icinde_append_left (pat a b : List Char) (h : icinde pat a = true) :
    icinde pat (a ++ b) = true := by
  induction a with
  | nil =>
    cases pat with
    | nil => exact icinde_nil b
    | cons p ps => simp [icinde, onEk] at h
  | cons c cs ih =>
    simp only [icinde, Bool.or_eq_true] at h
    rcases h with h | h
    · simp only [List.cons_append, icinde, Bool.or_eq_true]
      exact Or.inl (onEk_append b h)
    · simp only [List.cons_append, icinde, Bool.or_eq_true]
      exact Or.inr (ih h)

/-- An occurrence inside `b` survives appending `a` on the left. -/
theorem icinde_append_right (pat a b : List Char) (h : icinde pat b = true) :
    icinde pat (a ++ b) = true := by
  induction a with
  | nil => simpa using h
  | cons c cs ih =>
    simp only [List.cons_append, icinde, Bool.or_eq_true]
    exact Or.inr ih

/-- String version of `icinde_append_left`. -/
theorem hasSub_append_left (a b pat : String) (h : hasSub a pat = true) :
    hasSub (a ++ b) pat = true := by
  simpa [hasSub, String.data_append] using icinde_append_left pat.data a.data b.data h

/-- String version of `icinde_append_right`. -/
theorem hasSub_append_right (a b pat : String) (h : hasSub b pat = true) :
    hasSub (a ++ b) pat = true := by
  simpa [hasSub, String.data_append] using icinde_append_right pat.data a.data b.data h

-- ## Claim theorems

/-- C1: the end-to-end Burger pipeline. The Sales Aggregator does yield the
two points (20, 10.0) and (25, 7.0) — column `ortalama_gunluk_adet` — but
the Price Simulator then reads the nonexistent column `ortalama_fiyat`, so
instead of fitting slope -0.6 and reporting quantity 8.8 and profit 105.6 at
price 22, it raises a `KeyError` that the outer handler converts into a
failure result. -/
theorem c1_burger_hatti :
    getDailySalesData burgerSatislar = some burgerDF ∧
    (burgerDF.rows.map (fun r => (r.hesaplananBirimFiyat, r.ortalamaGunlukAdet))) =
      [(20, 10), (25, 7)] ∧
    simuleEtFiyatDegisikligi burgerEnv "Burger" 22 =
      (false, "Simülasyon hatası: KeyError: ortalama_fiyat", none) := by
  refine ⟨?_, by decide, by decide⟩
  simp +decide [getDailySalesData, burgerSatislar, burgerDF, tekiller, ascSirala, ascEkle]
  norm_num

/-- C2: with an existing item of positive cost, the Target-Margin Solver
succeeds for a margin strictly inside (0, 100) and returns
`cost / (1 - margin/100)` in its report, and fails with the invalid-margin
message for any margin outside the open interval. -/
theorem c2_hedef_marj_cozucu (env : Env) (urunIsmi : String) (m : ℚ) (urun : Urun) (c : ℚ)
    (hu : env.urunler urunIsmi = some urun)
    (hc : urun.hesaplananMaliyet = some c) (hpos : 0 < c) :
    (0 < m → m < 100 →
      hesaplaHedefMarj env urunIsmi m =
        (true, marjRaporu urun.isim c m (gerekenSatisFiyati c m), none) ∧
      gerekenSatisFiyati c m = c / (1 - m / 100)) ∧
    (¬ (0 < m ∧ m < 100) →
      hesaplaHedefMarj env urunIsmi m =
        (false, "HATA: Hedef Marj %1 ile %99 arasında bir değer olmalıdır.", none)) := by
  have hle : ¬ (c ≤ 0) := not_le.mpr hpos
  constructor
  · intro h0 h100
    refine ⟨?_, rfl⟩
    simp [hesaplaHedefMarj, hedefMarjBody, hedefMarjCore, hu, hc, hle, h0, h100]
  · intro hm
    simp [hesaplaHedefMarj, hedefMarjBody, hedefMarjCore, hu, hc, hle, hm]

/-- Witness for C2: the Burger item (cost 10) at margin 50 gives exactly
price 20. -/
theorem c2_hedef_marj_cozucu_witness :
    (hesaplaHedefMarj burgerEnv "Burger" 50 =
      (true, marjRaporu burgerUrun.isim 10 50 (gerekenSatisFiyati 10 50), none) ∧
     gerekenSatisFiyati 10 50 = 10 / (1 - 50 / 100)) ∧
    gerekenSatisFiyati 10 50 = 20 := by
  refine ⟨(c2_hedef_marj_cozucu burgerEnv "Burger" 50 burgerUrun 10 (by decide)
    (by decide) (by norm_num)).1 (by norm_num) (by norm_num),
    by norm_num [gerekenSatisFiyati]⟩

/-- C3: each of the four analysis engines is a total function into the
tri-state result type, equal to its body when the body returns, and equal to
the failure triple carrying the underlying error message when the body
raises — the `try/except` at the outermost level of each engine. -/
theorem c3_ucdurum_ve_yakalama :
    (∀ env isim marj,
      (∃ r, hedefMarjBody env isim marj = Except.ok r ∧ hesaplaHedefMarj env isim marj = r) ∨
      (∃ e, hedefMarjBody env isim marj = Except.error e ∧
        hesaplaHedefMarj env isim marj = (false, "Hesaplama hatası: " ++ e, none))) ∧
    (∀ env isim fiyat,
      (∃ r, simuleBody env isim fiyat = Except.ok r ∧ simuleEtFiyatDegisikligi env isim fiyat = r) ∨
      (∃ e, simuleBody env isim fiyat = Except.error e ∧
        simuleEtFiyatDegisikligi env isim fiyat = (false, "Simülasyon hatası: " ++ e, none))) ∧
    (∀ env isim adim,
      (∃ r, bulOptimumBody env isim adim = Except.ok r ∧ bulOptimumFiyat env isim adim = r) ∨
      (∃ e, bulOptimumBody env isim adim = Except.error e ∧
        bulOptimumFiyat env isim adim = (false, "Optimizasyon hatası: " ++ e, none))) ∧
    (∀ env tip isim gun,
      (∃ r, analizBody env tip isim gun = Except.ok r ∧ analizEtKategoriVeyaGrup env tip isim gun = r) ∨
      (∃ e, analizBody env tip isim gun = Except.error e ∧
        analizEtKategoriVeyaGrup env tip isim gun = (false, "Stratejik analiz hatası: " ++ e, none))) := by
  refine ⟨?_, ?_, ?_, ?_⟩
  · intro env isim marj
    cases h : hedefMarjBody env isim marj with
    | ok r => exact Or.inl ⟨r, rfl, by simp [hesaplaHedefMarj, h]⟩
    | error e => exact Or.inr ⟨e, rfl, by simp [hesaplaHedefMarj, h]⟩
  · intro env isim fiyat
    cases h : simuleBody env isim fiyat with
    | ok r => exact Or.inl ⟨r, rfl, by simp [simuleEtFiyatDegisikligi, h]⟩
    | error e => exact Or.inr ⟨e, rfl, by simp [simuleEtFiyatDegisikligi, h]⟩
  · intro env isim adim
    cases h : bulOptimumBody env isim adim with
    | ok r => exact Or.inl ⟨r, rfl, by simp [bulOptimumFiyat, h]⟩
    | error e => exact Or.inr ⟨e, rfl, by simp [bulOptimumFiyat, h]⟩
  · intro env tip isim gun
    cases h : analizBody env tip isim gun with
    | ok r => exact Or.inl ⟨r, rfl, by simp [analizEtKategoriVeyaGrup, h]⟩
    | error e => exact Or.inr ⟨e, rfl, by simp [analizEtKategoriVeyaGrup, h]⟩

/-- C4: on upward-sloping data (fit slope 4.5 ≥ 0 on prices [10, 20] and
quantities [5, 50]) the claim expects the simulator to fail with the slope
warning and the optimizer to succeed on the constant-demand fallback; in the
code both engines die on the nonexistent column `ortalama_fiyat` before any
slope test, so the optimizer returns a failure instead of a success. -/
theorem c4_yukselen_egim :
    (0 : ℚ) ≤ (olsFit [10, 20] [5, 50]).1 ∧
    simuleEtFiyatDegisikligi yukselenEnv "Limonata" 15 =
      (false, "Simülasyon hatası: KeyError: ortalama_fiyat", none) ∧
    bulOptimumFiyat yukselenEnv "Limonata" 1 =
      (false, "Optimizasyon hatası: KeyError: ortalama_fiyat", none) := by
  refine ⟨by norm_num [olsFit, listSum, carpim], by decide, by decide⟩

/-- C5: for the Burger item (cost 10 > 0, two distinct prices) the claim
expects a grid search over `[max(1.1*10, 0.8*20), 1.5*25)` returning an
optimum; the code instead raises `KeyError: ortalama_fiyat` at the
`nunique` test before the grid is ever built, and reports a failure. -/
theorem c5_izgara_kaybi :
    bulOptimumFiyat burgerEnv "Burger" 1 =
      (false, "Optimizasyon hatası: KeyError: ortalama_fiyat", none) := by
  decide

/-- C6: called on the aggregated Burger frame with a valid model, cost 10
and candidate price 100 (outside the default range), the Curve Renderer
raises `KeyError: ortalama_fiyat` on its first line instead of producing 50
samples — and even with that column present, the extension branch reads the
unbound local `fiyat_max`. -/
theorem c6_egri_uretici :
    getDailySalesData burgerSatislar = some burgerDF ∧
    generatePriceCurveData (some (-3/5, 22)) 10 burgerDF (some 100) =
      Except.error "KeyError: ortalama_fiyat" := by
  refine ⟨?_, rfl⟩
  simp +decide [getDailySalesData, burgerSatislar, burgerDF, tekiller, ascSirala, ascEkle]
  norm_num

/-- C7: in the per-price evaluation steps of the Price Simulator
(lines 171-173), the Optimum-Price Search loop (lines 240-246) and the Curve
Renderer clamp (line 72), the quantity entering the profit formula is never
negative: a negative raw prediction is replaced by 0 and profit is
`(price - cost) * quantity` with the floored quantity. -/
theorem c7_negatif_olmayan_talep :
    (∀ (model : Model) (maliyet p : ℚ),
      0 ≤ (simTahminAdim model maliyet p).1 ∧
      (tahmin model p < 0 → (simTahminAdim model maliyet p).1 = 0) ∧
      (0 ≤ tahmin model p → (simTahminAdim model maliyet p).1 = tahmin model p) ∧
      (simTahminAdim model maliyet p).2 = (p - maliyet) * (simTahminAdim model maliyet p).1) ∧
    (∀ (model : Option Model) (ortalamaAdet maliyet fiyat : ℚ),
      0 ≤ (optTahminAdim model ortalamaAdet maliyet fiyat).1 ∧
      (optTahminAdim model ortalamaAdet maliyet fiyat).2 =
        (fiyat - maliyet) * (optTahminAdim model ortalamaAdet maliyet fiyat).1) ∧
    (∀ (l : List ℚ) (q : ℚ), q ∈ clampNeg l → 0 ≤ q) := by
  refine ⟨?_, ?_, ?_⟩
  · intro model maliyet p
    refine ⟨le_max_left 0 _, ?_, ?_, rfl⟩
    · intro h
      simp [simTahminAdim, max_eq_left (le_of_lt h)]
    · intro h
      simp [simTahminAdim, max_eq_right h]
  · intro model ortalamaAdet maliyet fiyat
    exact ⟨le_max_left 0 _, rfl⟩
  · intro l q hq
    simp only [clampNeg, List.mem_map] at hq
    obtain ⟨a, -, ha⟩ := hq
    subst ha
    by_cases hlt : a < 0
    · simp [hlt]
    · simp only [if_neg hlt]
      exact not_lt.mp hlt

/-- Witness for C7: a raw prediction of -7 at price 10 is floored to 0; the
fallback path and the clamp are exercised at concrete inputs. -/
theorem c7_negatif_olmayan_talep_witness :
    (simTahminAdim (-1, 3) 2 10).1 = 0 ∧
    (0 : ℚ) ≤ (optTahminAdim none 5 2 10).1 ∧
    ((0 : ℚ) ∈ clampNeg [-4] → (0:ℚ) ≤ 0) ∧ (0 : ℚ) ∈ clampNeg [-4] := by
  refine ⟨(c7_negatif_olmayan_talep.1 (-1, 3) 2 10).2.1 (by norm_num [tahmin]),
    (c7_negatif_olmayan_talep.2.1 none 5 2 10).1,
    fun h => c7_negatif_olmayan_talep.2.2 [-4] 0 h, by decide⟩

/-- C8 counterexample: with today = 100 and N = 7, the sale stamped today is
included in the code current window, although the claimed window
`[today - N, today)` excludes it — the current-window filter has no upper
bound. -/
theorem c8_pencere_karsiornegi :
    c8RToday ∈ buPeriyotFilter 100 7 c8Rows ∧
    (100 : ℚ) ≤ c8RToday.tarih ∧
    buPeriyotFilter 100 7 c8Rows ≠
      c8Rows.filter (fun r => decide ((93 : ℚ) ≤ r.tarih ∧ r.tarih < 100)) := by
  decide

/-- C8 amended: the current window contains exactly the rows with timestamp
at least today - N, with no upper bound (so sales dated today or later are
included); the previous window contains exactly the rows in
`[today - 2N, today - N)`; the two windows are disjoint. -/
theorem c8_pencere_karakterizasyonu (bugun gunSayisi : ℤ) (rows : List GrupRow) (r : GrupRow) :
    (r ∈ buPeriyotFilter bugun gunSayisi rows ↔
      r ∈ rows ∧ ((bugun - gunSayisi : ℤ) : ℚ) ≤ r.tarih) ∧
    (r ∈ oncekiPeriyotFilter bugun gunSayisi rows ↔
      r ∈ rows ∧ ((bugun - 2 * gunSayisi : ℤ) : ℚ) ≤ r.tarih ∧
        r.tarih < ((bugun - gunSayisi : ℤ) : ℚ)) ∧
    ¬ (r ∈ buPeriyotFilter bugun gunSayisi rows ∧
       r ∈ oncekiPeriyotFilter bugun gunSayisi rows) := by
  have h2 : (bugun - gunSayisi - gunSayisi : ℤ) = bugun - 2 * gunSayisi := by ring
  refine ⟨?_, ?_, ?_⟩
  · simp [buPeriyotFilter, List.mem_filter]
  · simp [oncekiPeriyotFilter, List.mem_filter, h2]
  · rintro ⟨hbu, hon⟩
    simp only [buPeriyotFilter, oncekiPeriyotFilter, List.mem_filter,
      decide_eq_true_eq] at hbu hon
    exact absurd hbu.2 (not_le.mpr hon.2.2)

/-- Witness for C8: the window characterization applied at the concrete
window data, discharging the claimed disjointness there. -/
theorem c8_pencere_karakterizasyonu_witness :
    ¬ (c8RToday ∈ buPeriyotFilter 100 7 c8Rows ∧
       c8RToday ∈ oncekiPeriyotFilter 100 7 c8Rows) :=
  (c8_pencere_karakterizasyonu 100 7 c8Rows c8RToday).2.2

set_option maxRecDepth 8000 in
/-- C9 counterexample: with both windows holding total profit 100 (delta
exactly 0), the comparator still reports, and its report carries the
cannibalization-warning framing — the `AZALDI` line and the intra-group
`iç yamyamlık` note — instead of the success framing the claim requires for
a non-negative delta. -/
theorem c9_sinif_karsiornegi :
    (hesaplaKategoriOzeti (buPeriyotFilter 100 7 c9Rows) "isim").toplamKari -
      (hesaplaKategoriOzeti (oncekiPeriyotFilter 100 7 c9Rows) "isim").toplamKari = 0 ∧
    (analizEtKategoriVeyaGrup c9Env "kategori" "Burgerler" 7).1 = true ∧
    hasSub (analizEtKategoriVeyaGrup c9Env "kategori" "Burgerler" 7).2.1 "AZALDI" = true ∧
    hasSub (analizEtKategoriVeyaGrup c9Env "kategori" "Burgerler" 7).2.1 "iç yamyamlık" = true ∧
    hasSub (analizEtKategoriVeyaGrup c9Env "kategori" "Burgerler" 7).2.1 "BAŞARILI" = false := by
  have hf0 : fmt2 (0 : ℚ) = "0.00" := by
    norm_num [fmt2, fmtFixed, round_eq]
    decide
  have hf100 : fmt2 (100 : ℚ) = "100.00" := by
    norm_num [fmt2, fmtFixed, round_eq]
    decide
  have hp100 : fmt1 (100 : ℚ) = "100.0" := by
    norm_num [fmt1, fmtFixed, round_eq]
    decide
  refine ⟨?_, rfl, ?_, ?_, ?_⟩
  · norm_num [hesaplaKategoriOzeti, buPeriyotFilter, oncekiPeriyotFilter, c9Rows,
      listSum, tekiller]
  · apply hasSub_append_right
    norm_num [stratejistTavsiyesi, hesaplaKategoriOzeti, buPeriyotFilter, oncekiPeriyotFilter,
      c9Env, c9Rows, listSum, tekiller, getSalesByFilter]
    apply hasSub_append_left
    apply hasSub_append_left
    apply hasSub_append_right
    decide
  · apply hasSub_append_right
    norm_num [stratejistTavsiyesi, hesaplaKategoriOzeti, buPeriyotFilter, oncekiPeriyotFilter,
      c9Env, c9Rows, listSum, tekiller, getSalesByFilter]
    apply hasSub_append_left
    apply hasSub_append_right
    decide
  · norm_num [analizEtKategoriVeyaGrup, analizBody, analizCore, analizDevam, analizGovde,
      ozetBloku, stratejistTavsiyesi, hesaplaKategoriOzeti, buPeriyotFilter,
      oncekiPeriyotFilter, getSalesByFilter, c9Env, c9Rows, listSum, tekiller, sozlukDeger,
      padTo20, strSirala, strEkle, hf0, hf100, hp100]
    decide

/-- C9 amended: the advisory appended by the comparator frames a strictly
positive delta as success (the `ARTTI.` line) and a zero or negative delta
as a cannibalization warning (the `AZALDI` line), cross-group for
`kategori_grubu` and intra-group otherwise. -/
theorem c9_siniflandirma (tip isim : String) (fark : ℚ) :
    (0 < fark → hasSub (stratejistTavsiyesi tip isim fark) "ARTTI." = true) ∧
    (fark ≤ 0 →
      hasSub (stratejistTavsiyesi tip isim fark) "AZALDI" = true ∧
      (tip = "kategori_grubu" →
        hasSub (stratejistTavsiyesi tip isim fark) "çapraz yamyamlık" = true) ∧
      (tip ≠ "kategori_grubu" →
        hasSub (stratejistTavsiyesi tip isim fark) "iç yamyamlık" = true)) := by
  constructor
  · intro h
    rw [stratejistTavsiyesi, if_pos h]
    exact hasSub_append_right _ _ _ (by decide)
  · intro h
    rw [stratejistTavsiyesi, if_neg (not_lt.mpr h)]
    refine ⟨?_, ?_, ?_⟩
    · exact hasSub_append_left _ _ _ (hasSub_append_left _ _ _
        (hasSub_append_right _ _ _ (by decide)))
    · intro htip
      rw [htip, if_pos rfl]
      exact hasSub_append_left _ _ _ (hasSub_append_right _ _ _ (by decide))
    · intro htip
      rw [if_neg htip]
      exact hasSub_append_left _ _ _ (hasSub_append_right _ _ _ (by decide))

/-- Witness for C9: the advisory at delta 0 carries the intra-group
cannibalization warning. -/
theorem c9_siniflandirma_witness :
    hasSub (stratejistTavsiyesi "kategori" "X" 0) "AZALDI" = true ∧
    hasSub (stratejistTavsiyesi "kategori" "X" 0) "iç yamyamlık" = true := by
  have h := (c9_siniflandirma "kategori" "X" 0).2 le_rfl
  exact ⟨h.1, h.2.2 (by decide)⟩

/-- C10: for positive cost and a margin strictly inside (0, 100), the price
returned by the Target-Margin Solver achieves the requested margin exactly,
`(p - c) / p = m / 100`, and therefore strictly exceeds the cost. -/
theorem c10_marj_kesinligi (c m : ℚ) (hc : 0 < c) (h0 : 0 < m) (h100 : m < 100) :
    (gerekenSatisFiyati c m - c) / gerekenSatisFiyati c m = m / 100 ∧
    c < gerekenSatisFiyati c m := by
  have hd : 0 < 1 - m / 100 := by linarith
  have hdne : (1 - m / 100) ≠ 0 := ne_of_gt hd
  have hcne : c ≠ 0 := ne_of_gt hc
  have hp : gerekenSatisFiyati c m = c / (1 - m / 100) := rfl
  have h100ne : (100 : ℚ) - m ≠ 0 := by intro h; linarith
  have hpne : c / (1 - m / 100) ≠ 0 := div_ne_zero hcne hdne
  constructor
  · rw [hp, div_eq_iff hpne]
    field_simp
    ring
  · rw [hp, lt_div_iff₀ hd]
    nlinarith

/-- Witness for C10: cost 10 at margin 50 gives price 20, margin
(20 - 10) / 20 = 50 / 100, and 10 < 20. -/
theorem c10_marj_kesinligi_witness :
    (gerekenSatisFiyati 10 50 - 10) / gerekenSatisFiyati 10 50 = 50 / 100 ∧
    (10 : ℚ) < gerekenSatisFiyati 10 50 :=
  c10_marj_kesinligi 10 50 (by norm_num) (by norm_num) (by norm_num)

end Resto
